import Mathlib

set_option linter.unusedVariables false

/-!
Verification of the manager_api_auth authentication core.

Part 1 embeds the identity resolver of `src/user.go` (`User.Get`, `GetUser`):
the storage collaborator is modelled as a record of query outcomes, and the
resolver additionally returns the trace of storage operations it attempted
and the log lines it emitted, so ordering and degraded-mode policies can be
stated.

Part 2 embeds the credential codec of the JWT wrapper file (`CreateToken`,
`VerifyToken`). The wrapper delegates parsing, signature verification and
expiry checking to the golang-jwt library, which is not part of this
repository; those parts are modelled from the spec (see the doc comments
marked "Modelled from the spec"). The subject-claim extraction
`claims["usertkn"].(string)` is repository code and is embedded faithfully,
including its panic behaviour on a missing or non-string claim.
-/

namespace ManagerApiAuth

/-- Outcome of a single database scan: Go's `sql.ErrNoRows` versus any other
driver/infrastructure error carrying a message. -/
inductive ScanErr where
  | noRows
  | other (msg : String)
deriving DecidableEq

/-- Message a `ScanErr` prints when logged (mirrors the Go error's text being
passed to the logger). -/
def ScanErr.msg : ScanErr → String
  | .noRows => "sql: no rows in result set"
  | .other m => m

/-- Permissions mirrors the `Permissions` struct of `src/user.go` (the primary
variant): twelve boolean capability flags. `ExportData` exists on the struct
but is absent from the `bo_user_security` SELECT, so it is never scanned. -/
structure Permissions where
  ManageTariff : Bool := false
  ManagePermits : Bool := false
  ViewReports : Bool := false
  ManageLocations : Bool := false
  ManageUsers : Bool := false
  ManageContacts : Bool := false
  ManageCustomerSupport : Bool := false
  ViewAPI : Bool := false
  ManageAPI : Bool := false
  BannedVehicles : Bool := false
  Marketing : Bool := false
  ExportData : Bool := false
deriving DecidableEq

/-- UserRow is the row shape of the `bo_user` SELECT in `User.Get`: the eleven
selected columns, with the two nullable timestamps (`last_login`,
`password_expiry`) as options. Instants are unix seconds. -/
structure UserRow where
  id : Int := 0
  name : String := ""
  email : String := ""
  active : Bool := false
  lastLogin : Option Int := none
  entered : Int := 0
  enteredBy : Int := 0
  tkn : String := ""
  passwordExpiry : Option Int := none
  clientId : Int := 0
  userType : String := ""
deriving DecidableEq

/-- PermRow is the row shape of the `bo_user_security` SELECT: the eleven
boolean columns scanned in `User.Get` (no `export_data` column exists). -/
structure PermRow where
  manage_tariff : Bool := false
  manage_permits : Bool := false
  view_reports : Bool := false
  manage_locations : Bool := false
  manage_users : Bool := false
  manage_contacts : Bool := false
  manage_customer_support : Bool := false
  view_api : Bool := false
  manage_api : Bool := false
  banned_vehicles : Bool := false
  marketing : Bool := false
deriving DecidableEq

/-- User mirrors the `User` struct of `src/user.go`. `Locations` is
`Option (List (Int × String))`: `none` models a nil Go map (the zero value),
`some l` an initialized map with association-list contents. -/
structure User where
  ID : Int := 0
  Name : String := ""
  Email : String := ""
  Active : Bool := false
  LastLogin : Int := 0
  Entered : Int := 0
  EnteredBy : Int := 0
  Tkn : String := ""
  PasswordExpiryDate : Int := 0
  Permissions : Permissions := {}
  ClientId : Int := 0
  Locations : Option (List (Int × String)) := none
  UserType : String := ""
deriving DecidableEq

deriving instance DecidableEq for Except

/-- Db models the storage collaborator for one `User.Get` call: the outcome of
each of the four storage operations the method performs. `locRows` is the
outcome of the `bo_user_locations` query, each row carrying its own scan
outcome; `lastLoginExec` is the outcome of the last-login UPDATE. -/
structure Db where
  userRow : Except ScanErr UserRow
  permRow : Except ScanErr PermRow
  locRows : Except ScanErr (List (Except String (Int × String)))
  lastLoginExec : Except String Unit
deriving DecidableEq

/-- DbEvent names a storage operation attempted by `User.Get`, in order. -/
inductive DbEvent where
  | userQuery
  | permQuery
  | locQuery
  | lastLoginWrite
deriving DecidableEq

/-- LogEntry is a line sent to the observability collaborator (`log.Warnln`
or `log.Errorln`). -/
inductive LogEntry where
  | warn (msg : String)
  | err (msg : String)
deriving DecidableEq

/-- GetErr is the error taxonomy of `User.Get`: the two sentinel errors
`ErrInvalidUserToken` and `ErrUserInActive`, and the wrapped unexpected
database error built with `fmt.Errorf`, carrying its cause. -/
inductive GetErr where
  | ErrInvalidUserToken
  | ErrUserInActive
  | unexpectedDbError (cause : String)
deriving DecidableEq

/-- GetResult packages what one `User.Get` call produces: the (mutated)
receiver, the returned error, the trace of storage operations attempted, and
the log lines emitted. -/
structure GetResult where
  user : User
  err : Option GetErr
  events : List DbEvent
  logs : List LogEntry
deriving DecidableEq

/-- scanUserRow is the effect of the successful `bo_user` Scan on the receiver:
the nine non-nullable destinations are written. The two `sql.NullTime` columns
are scanned into locals and copied to the struct only later (after the active
check), so they are not part of this step. -/
def scanUserRow (m : User) (row : UserRow) : User :=
  { m with ID := row.id, Name := row.name, Email := row.email,
           Active := row.active, Entered := row.entered,
           EnteredBy := row.enteredBy, Tkn := row.tkn,
           ClientId := row.clientId, UserType := row.userType }

/-- applyNullTimes copies the two nullable timestamp locals onto the struct
when valid (the `if lastLogin.Valid` / `if passwordExpiry.Valid` blocks). -/
def applyNullTimes (m : User) (row : UserRow) : User :=
  let m1 := match row.lastLogin with
    | some t => { m with LastLogin := t }
    | none => m
  match row.passwordExpiry with
  | some t => { m1 with PasswordExpiryDate := t }
  | none => m1

/-- scanPermissions is the effect of a successful `bo_user_security` Scan:
the eleven scanned flags are overwritten; `ExportData` has no column and is
left as it was. -/
def scanPermissions (old : Permissions) (p : PermRow) : Permissions :=
  { old with ManageTariff := p.manage_tariff, ManagePermits := p.manage_permits,
             ViewReports := p.view_reports, ManageLocations := p.manage_locations,
             ManageUsers := p.manage_users, ManageContacts := p.manage_contacts,
             ManageCustomerSupport := p.manage_customer_support,
             ViewAPI := p.view_api, ManageAPI := p.manage_api,
             BannedVehicles := p.banned_vehicles, Marketing := p.marketing }

/-- applyPerm is the permission-load step: on a successful scan the flags are
overwritten; on any scan error the error is only logged (`log.Warnln`) and the
permissions are left unchanged. -/
def applyPerm (m : User) (pr : Except ScanErr PermRow) : User × List LogEntry :=
  match pr with
  | .ok p => ({ m with Permissions := scanPermissions m.Permissions p }, [])
  | .error e => (m, [LogEntry.warn e.msg])

/-- mapInsert is Go map assignment `m[k] = v` on the association-list model:
overwrite the existing key or append a new pair. -/
def mapInsert (l : List (Int × String)) (k : Int) (v : String) : List (Int × String) :=
  if l.any (fun p => p.fst = k) then
    l.map (fun p => if p.fst = k then (k, v) else p)
  else l ++ [(k, v)]

/-- locFold is the `rows.Next()` loop: a row whose scan fails is logged
(`log.Warnln`) and skipped; a row that scans inserts into the map. -/
def locFold (start : User × List LogEntry) (rows : List (Except String (Int × String))) :
    User × List LogEntry :=
  rows.foldl (fun acc r =>
    match r with
    | .error msg => (acc.fst, acc.snd ++ [LogEntry.warn msg])
    | .ok p => ({ acc.fst with
                  Locations := some (mapInsert (acc.fst.Locations.getD []) p.fst p.snd) },
                acc.snd)) start

/-- applyLoc is the location-load step: `m.Locations = make(map[int]string, 0)`
always initializes the map first; a failed query is logged (`log.Errorln`,
except for `sql.ErrNoRows`) and leaves the map empty; otherwise the row loop
runs. -/
def applyLoc (m : User) (lr : Except ScanErr (List (Except String (Int × String)))) :
    User × List LogEntry :=
  let m0 := { m with Locations := some [] }
  match lr with
  | .error .noRows => (m0, [])
  | .error (.other msg) => (m0, [LogEntry.err msg])
  | .ok rows => locFold (m0, []) rows

/-- execLog is the last-login UPDATE step's observable effect: a failure is
logged (`log.Warnln`), success emits nothing; the outcome is never returned. -/
def execLog : Except String Unit → List LogEntry
  | .ok _ => []
  | .error msg => [LogEntry.warn msg]

/-- User.Get embeds `func (m *User) Get(userTkn string, db *sql.DB) error` of
`src/user.go`: core-row lookup with its two error branches, the active gate,
the nullable-timestamp copies, the non-fatal permission and location loads,
and the best-effort last-login write, with the attempted storage operations
and emitted log lines recorded. -/
def User.Get (m : User) (userTkn : String) (db : Db) : GetResult :=
  match db.userRow with
  | .error .noRows => ⟨m, some .ErrInvalidUserToken, [.userQuery], []⟩
  | .error (.other msg) =>
      ⟨m, some (.unexpectedDbError ("there was an unexpected error reading from the database: " ++ msg)),
       [.userQuery], []⟩
  | .ok row =>
    let m1 := scanUserRow m row
    if !m1.Active then
      ⟨m1, some .ErrUserInActive, [.userQuery], []⟩
    else
      let m2 := applyNullTimes m1 row
      let pr := applyPerm m2 db.permRow
      let lr := applyLoc pr.fst db.locRows
      ⟨lr.fst, none, [.userQuery, .permQuery, .locQuery, .lastLoginWrite],
       pr.snd ++ lr.snd ++ execLog db.lastLoginExec⟩

/-- GetUser embeds `func GetUser(userTkn string, db *sql.DB) (User, error)`:
it runs `Get` on a fresh zero-value `User{}` and returns the pair. -/
def GetUser (userTkn : String) (db : Db) : User × Option GetErr :=
  let usr : User := {}
  let r := usr.Get userTkn db
  (r.user, r.err)

/-- C1: if the user row is found but inactive, `User.Get` fails with
`ErrUserInActive` immediately: the storage trace shows only the core-row
query; no permission lookup, no location lookup and no last-login write are
attempted, whatever their outcomes would have been. -/
theorem UserGet_inactive_gate (m : User) (userTkn : String) (db : Db) (row : UserRow)
    (hrow : db.userRow = .ok row) (hact : row.active = false) :
    (User.Get m userTkn db).err = some .ErrUserInActive ∧
    (User.Get m userTkn db).events = [DbEvent.userQuery] := by
  unfold User.Get
  rw [hrow]
  simp [scanUserRow, hact]

theorem UserGet_inactive_gate_witness :
    (User.Get {} "tkn-1"
      { userRow := .ok { id := 7, name := "Ada", email := "a@b.c", active := false,
                         lastLogin := some 5, entered := 1, enteredBy := 2,
                         tkn := "tkn-1", passwordExpiry := some 9, clientId := 3,
                         userType := "admin" },
        permRow := .error (.other "perm query exploded"),
        locRows := .error (.other "loc query exploded"),
        lastLoginExec := .error "exec exploded" }).err = some .ErrUserInActive ∧
    (User.Get {} "tkn-1"
      { userRow := .ok { id := 7, name := "Ada", email := "a@b.c", active := false,
                         lastLogin := some 5, entered := 1, enteredBy := 2,
                         tkn := "tkn-1", passwordExpiry := some 9, clientId := 3,
                         userType := "admin" },
        permRow := .error (.other "perm query exploded"),
        locRows := .error (.other "loc query exploded"),
        lastLoginExec := .error "exec exploded" }).events = [DbEvent.userQuery] :=
  UserGet_inactive_gate {} "tkn-1" _ _ rfl rfl

/-- locFold only touches the `Locations` field and the log list. -/
theorem locFold_Permissions (rows : List (Except String (Int × String)))
    (m : User) (ls : List LogEntry) :
    (locFold (m, ls) rows).fst.Permissions = m.Permissions := by
  induction rows generalizing m ls with
  | nil => rfl
  | cons r rest ih =>
    cases r with
    | error msg => simpa [locFold] using ih m (ls ++ [LogEntry.warn msg])
    | ok p => simpa [locFold] using ih _ ls

/-- locFold keeps the map initialized once it is. -/
theorem locFold_Locations_isSome (rows : List (Except String (Int × String)))
    (m : User) (ls : List LogEntry) (h : m.Locations.isSome = true) :
    ((locFold (m, ls) rows).fst.Locations).isSome = true := by
  induction rows generalizing m ls with
  | nil => exact h
  | cons r rest ih =>
    cases r with
    | error msg => simpa [locFold] using ih m (ls ++ [LogEntry.warn msg]) h
    | ok p => simpa [locFold] using ih _ ls (by simp)

/-- applyLoc never changes the permission flags. -/
theorem applyLoc_Permissions (m : User)
    (lr : Except ScanErr (List (Except String (Int × String)))) :
    (applyLoc m lr).fst.Permissions = m.Permissions := by
  cases lr with
  | error e => cases e <;> rfl
  | ok rows => simpa [applyLoc] using locFold_Permissions rows _ []

/-- applyLoc always leaves the map initialized. -/
theorem applyLoc_Locations_isSome (m : User)
    (lr : Except ScanErr (List (Except String (Int × String)))) :
    ((applyLoc m lr).fst.Locations).isSome = true := by
  cases lr with
  | error e => cases e <;> rfl
  | ok rows => simpa [applyLoc] using locFold_Locations_isSome rows _ [] (by simp)

/-- applyNullTimes never changes the permission flags. -/
theorem applyNullTimes_Permissions (m : User) (row : UserRow) :
    (applyNullTimes m row).Permissions = m.Permissions := by
  unfold applyNullTimes
  cases row.lastLogin <;> cases row.passwordExpiry <;> rfl

/-- C3: a core-row lookup with no matching row yields `ErrInvalidUserToken`;
any other lookup failure yields the distinct wrapped unexpected-database
error carrying the underlying cause; the two constructors never coincide. -/
theorem UserGet_unknown_subject_distinct_storage (m : User) (userTkn : String) (db : Db) :
    (db.userRow = .error .noRows →
      (User.Get m userTkn db).err = some .ErrInvalidUserToken) ∧
    (∀ msg, db.userRow = .error (.other msg) →
      (User.Get m userTkn db).err =
        some (.unexpectedDbError ("there was an unexpected error reading from the database: " ++ msg))) ∧
    (∀ cause, GetErr.ErrInvalidUserToken ≠ GetErr.unexpectedDbError cause) := by
  refine ⟨fun h => ?_, fun msg h => ?_, fun cause => by simp⟩
  · unfold User.Get; rw [h]
  · unfold User.Get; rw [h]

theorem UserGet_unknown_subject_distinct_storage_witness :
    (User.Get {} "ghost-tkn"
      { userRow := .error .noRows, permRow := .error .noRows,
        locRows := .ok [], lastLoginExec := .ok () }).err =
      some .ErrInvalidUserToken ∧
    (User.Get {} "any-tkn"
      { userRow := .error (.other "connection refused"), permRow := .error .noRows,
        locRows := .ok [], lastLoginExec := .ok () }).err =
      some (.unexpectedDbError "there was an unexpected error reading from the database: connection refused") :=
  ⟨(UserGet_unknown_subject_distinct_storage {} "ghost-tkn" _).1 rfl,
   (UserGet_unknown_subject_distinct_storage {} "any-tkn" _).2.1 "connection refused" rfl⟩

/-- C4: when the user row exists with `active = true` but the permission scan
fails (no row or any other error), `GetUser` returns a user whose permission
set has every flag false, and no error. -/
theorem GetUser_deny_by_default (userTkn : String) (db : Db) (row : UserRow) (e : ScanErr)
    (hrow : db.userRow = .ok row) (hact : row.active = true)
    (hperm : db.permRow = .error e) :
    (GetUser userTkn db).fst.Permissions = {} ∧
    (GetUser userTkn db).snd = none := by
  refine ⟨?_, ?_⟩ <;>
    simp [GetUser, User.Get, hrow, hperm, scanUserRow, hact, applyPerm,
          applyLoc_Permissions, applyNullTimes_Permissions]

theorem GetUser_deny_by_default_witness :
    (GetUser "tkn-2"
      { userRow := .ok { id := 9, name := "Bo", email := "b@c.d", active := true,
                         lastLogin := none, entered := 4, enteredBy := 1,
                         tkn := "tkn-2", passwordExpiry := none, clientId := 5,
                         userType := "ops" },
        permRow := .error .noRows,
        locRows := .ok [.ok (7, "North Depot")],
        lastLoginExec := .ok () }).fst.Permissions = {} ∧
    (GetUser "tkn-2"
      { userRow := .ok { id := 9, name := "Bo", email := "b@c.d", active := true,
                         lastLogin := none, entered := 4, enteredBy := 1,
                         tkn := "tkn-2", passwordExpiry := none, clientId := 5,
                         userType := "ops" },
        permRow := .error .noRows,
        locRows := .ok [.ok (7, "North Depot")],
        lastLoginExec := .ok () }).snd = none :=
  GetUser_deny_by_default "tkn-2" _ _ .noRows rfl rfl rfl

/-- applyLoc on a failed location query leaves the map initialized and empty. -/
theorem applyLoc_error_Locations (m : User) (e : ScanErr) :
    (applyLoc m (.error e)).fst.Locations = some [] := by
  cases e <;> rfl

/-- C8: whenever `User.Get` returns no error the location map is initialized
(`some`), and a failed location query still yields success with an empty,
initialized map — the failure is never escalated to an error. -/
theorem UserGet_locations_initialized (m : User) (userTkn : String) (db : Db) :
    ((User.Get m userTkn db).err = none →
      ((User.Get m userTkn db).user.Locations).isSome = true) ∧
    (∀ row e, db.userRow = .ok row → row.active = true → db.locRows = .error e →
      (User.Get m userTkn db).err = none ∧
      (User.Get m userTkn db).user.Locations = some []) := by
  constructor
  · intro h
    cases hu : db.userRow with
    | error e =>
      cases e with
      | noRows => simp [User.Get, hu] at h
      | other msg => simp [User.Get, hu] at h
    | ok row =>
      cases hact : row.active with
      | false => simp [User.Get, hu, scanUserRow, hact] at h
      | true =>
        simpa [User.Get, hu, scanUserRow, hact] using applyLoc_Locations_isSome _ _
  · intro row e hrow hact hloc
    refine ⟨?_, ?_⟩ <;>
      simp [User.Get, hrow, scanUserRow, hact, hloc, applyLoc_error_Locations]

/-- Concrete storage outcome for the C8 witness: active user, location query
failing with an infrastructure error. -/
def dbC8 : Db :=
  { userRow := .ok { id := 3, name := "Cy", email := "c@d.e", active := true,
                     lastLogin := some 11, entered := 6, enteredBy := 2,
                     tkn := "tkn-3", passwordExpiry := none, clientId := 8,
                     userType := "basic" },
    permRow := .ok { manage_users := true },
    locRows := .error (.other "loc backend down"),
    lastLoginExec := .ok () }

theorem UserGet_locations_initialized_witness :
    ((User.Get {} "tkn-3" dbC8).user.Locations).isSome = true ∧
    ((User.Get {} "tkn-3" dbC8).err = none ∧
      (User.Get {} "tkn-3" dbC8).user.Locations = some []) :=
  ⟨(UserGet_locations_initialized {} "tkn-3" dbC8).1 (by decide),
   (UserGet_locations_initialized {} "tkn-3" dbC8).2 _ (.other "loc backend down") rfl rfl rfl⟩

/-- C9: once `User.Get` reaches the last-login write (row found, active), a
failing write changes nothing observable in the outcome: the error is still
`none` and the returned user equals the one returned when the write
succeeds. -/
theorem UserGet_lastlogin_failure_nonfatal (m : User) (userTkn : String) (db : Db)
    (row : UserRow) (msg : String)
    (hrow : db.userRow = .ok row) (hact : row.active = true) :
    (User.Get m userTkn { db with lastLoginExec := .error msg }).err = none ∧
    (User.Get m userTkn { db with lastLoginExec := .error msg }).user =
      (User.Get m userTkn db).user := by
  refine ⟨?_, ?_⟩ <;> simp [User.Get, hrow, scanUserRow, hact]

/-- Concrete storage outcome for the C9 witness. -/
def dbC9 : Db :=
  { userRow := .ok { id := 4, name := "Dee", email := "d@e.f", active := true,
                     lastLogin := none, entered := 7, enteredBy := 3,
                     tkn := "tkn-4", passwordExpiry := some 99, clientId := 1,
                     userType := "admin" },
    permRow := .ok {},
    locRows := .ok [.ok (7, "North Depot"), .ok (12, "")],
    lastLoginExec := .ok () }

theorem UserGet_lastlogin_failure_nonfatal_witness :
    (User.Get {} "tkn-4" { dbC9 with lastLoginExec := .error "update timed out" }).err = none ∧
    (User.Get {} "tkn-4" { dbC9 with lastLoginExec := .error "update timed out" }).user =
      (User.Get {} "tkn-4" dbC9).user :=
  UserGet_lastlogin_failure_nonfatal {} "tkn-4" dbC9 _ "update timed out" rfl rfl

/-- C10: the error return of `GetUser` is not atomic. On the inactive-account
error the returned user already carries the scanned row fields (with
`Active = false`); and on every error path the location map is still `none`
(a nil map), never an initialized empty map. -/
theorem GetUser_error_partial_user (userTkn : String) :
    (∀ db row, db.userRow = .ok row → row.active = false →
      (GetUser userTkn db).snd = some .ErrUserInActive ∧
      (GetUser userTkn db).fst.ID = row.id ∧
      (GetUser userTkn db).fst.Name = row.name ∧
      (GetUser userTkn db).fst.Email = row.email ∧
      (GetUser userTkn db).fst.Active = false ∧
      (GetUser userTkn db).fst.Entered = row.entered ∧
      (GetUser userTkn db).fst.EnteredBy = row.enteredBy ∧
      (GetUser userTkn db).fst.Tkn = row.tkn ∧
      (GetUser userTkn db).fst.ClientId = row.clientId ∧
      (GetUser userTkn db).fst.UserType = row.userType ∧
      (GetUser userTkn db).fst.Locations = none) ∧
    (∀ db, (GetUser userTkn db).snd ≠ none →
      (GetUser userTkn db).fst.Locations = none) := by
  constructor
  · intro db row hrow hact
    simp [GetUser, User.Get, hrow, scanUserRow, hact]
  · intro db h
    cases hu : db.userRow with
    | error e =>
      cases e with
      | noRows => simp [GetUser, User.Get, hu]
      | other msg => simp [GetUser, User.Get, hu]
    | ok row =>
      cases hact : row.active with
      | false => simp [GetUser, User.Get, hu, scanUserRow, hact]
      | true => simp [GetUser, User.Get, hu, scanUserRow, hact] at h

/-- Concrete storage outcome for the C10 witness: inactive user whose row is
otherwise fully populated. -/
def dbC10 : Db :=
  { userRow := .ok { id := 21, name := "Eve", email := "e@f.g", active := false,
                     lastLogin := some 44, entered := 8, enteredBy := 4,
                     tkn := "tkn-5", passwordExpiry := some 55, clientId := 2,
                     userType := "support" },
    permRow := .ok { view_reports := true },
    locRows := .ok [.ok (9, "South Depot")],
    lastLoginExec := .ok () }

theorem GetUser_error_partial_user_witness :
    ((GetUser "tkn-5" dbC10).snd = some .ErrUserInActive ∧
      (GetUser "tkn-5" dbC10).fst.ID = 21 ∧
      (GetUser "tkn-5" dbC10).fst.Name = "Eve" ∧
      (GetUser "tkn-5" dbC10).fst.Email = "e@f.g" ∧
      (GetUser "tkn-5" dbC10).fst.Active = false ∧
      (GetUser "tkn-5" dbC10).fst.Entered = 8 ∧
      (GetUser "tkn-5" dbC10).fst.EnteredBy = 4 ∧
      (GetUser "tkn-5" dbC10).fst.Tkn = "tkn-5" ∧
      (GetUser "tkn-5" dbC10).fst.ClientId = 2 ∧
      (GetUser "tkn-5" dbC10).fst.UserType = "support" ∧
      (GetUser "tkn-5" dbC10).fst.Locations = none) ∧
    (GetUser "tkn-5" dbC10).fst.Locations = none :=
  ⟨(GetUser_error_partial_user "tkn-5").1 dbC10 _ rfl rfl,
   (GetUser_error_partial_user "tkn-5").2 dbC10 (by decide)⟩

/-- JwtVal is a JSON claim value as far as the codec observes it: a string or
a non-string (numeric) value. -/
inductive JwtVal where
  | str (s : String)
  | num (n : Int)
deriving DecidableEq

/-- MapClaims is the claims set the codec reads and writes: the optional
`usertkn` subject claim and the optional `exp` expiry claim (unix seconds). -/
structure MapClaims where
  usertkn : Option JwtVal := none
  exp : Option Int := none
deriving DecidableEq

/-- encodeJwtVal is the payload text of one claim value. -/
def encodeJwtVal : JwtVal → String
  | .str s => "s:" ++ s
  | .num n => "n:" ++ toString n

/-- Modelled from the spec: the encoded claims-payload segment of the wire
format ("three dot-separated base64url segments ... containing at minimum
subject and exp"); the base64url/JSON encoding itself lives in the golang-jwt
library, outside this repository, so it is abstracted to a deterministic
textual encoding of both claims. -/
def encodeClaims (c : MapClaims) : String :=
  (match c.usertkn with
   | none => "_"
   | some v => "usertkn=" ++ encodeJwtVal v) ++ ";" ++
  (match c.exp with
   | none => "_"
   | some e => "exp=" ++ toString e)

/-- Modelled from the spec: the HMAC-SHA256 signature over the signing input
`header ++ "." ++ payload` under the shared secret key. The hash itself lives
in Go's crypto library, outside this repository; the spec needs only that the
signature is a deterministic function of key and signing input, recomputed
and compared on verification, so it is abstracted to such a function. -/
def hmacSHA256 (key msg : String) : String :=
  "hmac-sha256[" ++ key ++ "|" ++ msg ++ "]"

/-- Token is a credential split into the three segments of the wire format:
header segment, claims payload (held decoded), and signature segment. -/
structure Token where
  header : String
  claims : MapClaims
  sig : String
deriving DecidableEq

/-- hs256Header is the fixed header segment produced with
`jwt.SigningMethodHS256`. -/
def hs256Header : String := "alg=HS256,typ=JWT"

/-- signingInput is the text the signature covers: header and payload joined
by a dot. -/
def signingInput (t : Token) : String :=
  t.header ++ "." ++ encodeClaims t.claims

/-- CreateToken embeds the source's `CreateToken`: build claims
`{usertkn: usertkn, exp: now + 24h}` and sign them with the secret key
(HS256 signing of a string claim set cannot fail, so the token is returned
directly). Instants are unix seconds; `now` is the issuance instant. -/
def CreateToken (secretKey : String) (usertkn : String) (now : Int) : Token :=
  let claims : MapClaims := { usertkn := some (.str usertkn), exp := some (now + 24 * 3600) }
  { header := hs256Header, claims := claims,
    sig := hmacSHA256 secretKey (hs256Header ++ "." ++ encodeClaims claims) }

/-- VerifyErr is the error taxonomy of credential verification. -/
inductive VerifyErr where
  | malformedCredential
  | signatureInvalid
  | expiredCredential
deriving DecidableEq

/-- VerifyOutcome is the observable result of `VerifyToken`: a subject, an
ordinary error return, or a Go runtime panic. -/
inductive VerifyOutcome where
  | ok (usertkn : String)
  | err (e : VerifyErr)
  | panics
deriving DecidableEq

/-- Modelled from the spec: `jwt.Parse` of the golang-jwt library (not part of
this repository) — verification "recomputes the signature over header+payload
using the shared key and rejects on mismatch or on exp <= now"; both checks
are mandatory. On success it yields the claims. A token with no exp claim has
no expiry to reject on. -/
def jwtParse (secretKey : String) (t : Token) (now : Int) : Except VerifyErr MapClaims :=
  if t.sig = hmacSHA256 secretKey (signingInput t) then
    match t.claims.exp with
    | some e => if e ≤ now then .error .expiredCredential else .ok t.claims
    | none => .ok t.claims
  else .error .signatureInvalid

/-- VerifyToken embeds the source's `VerifyToken`: parse and validate via the
library (modelled by `jwtParse`), return the error if any, and otherwise
extract the subject with the unchecked Go type assertion
`claims["usertkn"].(string)` — which panics when the claim is absent or not a
string. -/
def VerifyToken (secretKey : String) (t : Token) (now : Int) : VerifyOutcome :=
  match jwtParse secretKey t now with
  | .error e => .err e
  | .ok claims =>
    match claims.usertkn with
    | some (.str s) => .ok s
    | _ => .panics

/-- C2: verifying a freshly issued credential at the issuance instant returns
exactly the issued subject identifier with no error. -/
theorem VerifyToken_CreateToken_roundtrip (secretKey usertkn : String) (t : Int)
    (h : usertkn ≠ "") :
    VerifyToken secretKey (CreateToken secretKey usertkn t) t = .ok usertkn := by
  unfold VerifyToken jwtParse CreateToken signingInput
  simp only []
  have hexp : ¬(t + 24 * 3600 ≤ t) := by omega
  simp [hexp]

theorem VerifyToken_CreateToken_roundtrip_witness :
    ("u-42" ≠ "") ∧
    VerifyToken "test-key" (CreateToken "test-key" "u-42" 0) 0 = .ok "u-42" :=
  ⟨by decide, VerifyToken_CreateToken_roundtrip "test-key" "u-42" 0 (by decide)⟩

/-- C5: verification rejects exactly when the current time has reached the
expiry claim: a 24-hour credential still verifies one second before expiry,
fails with the expired-credential error precisely at the expiry instant, and
fails at every later instant. -/
theorem VerifyToken_expiry_boundary (secretKey usertkn : String) (t : Int) :
    VerifyToken secretKey (CreateToken secretKey usertkn t) (t + 24 * 3600 - 1) =
      .ok usertkn ∧
    VerifyToken secretKey (CreateToken secretKey usertkn t) (t + 24 * 3600) =
      .err .expiredCredential ∧
    (∀ now, t + 24 * 3600 ≤ now →
      VerifyToken secretKey (CreateToken secretKey usertkn t) now =
        .err .expiredCredential) := by
  refine ⟨?_, ?_, fun now hnow => ?_⟩
  · have hexp : ¬(t + 24 * 3600 ≤ t + 24 * 3600 - 1) := by omega
    simp [VerifyToken, jwtParse, CreateToken, signingInput, hexp]
  · have hexp : t + 24 * 3600 ≤ t + 24 * 3600 := le_refl _
    simp [VerifyToken, jwtParse, CreateToken, signingInput, hexp]
  · have hexp : t + 86400 ≤ now := by omega
    simp [VerifyToken, jwtParse, CreateToken, signingInput, hexp]

theorem VerifyToken_expiry_boundary_witness :
    VerifyToken "test-key" (CreateToken "test-key" "u-42" 100) (100 + 24 * 3600 - 1) =
      .ok "u-42" ∧
    VerifyToken "test-key" (CreateToken "test-key" "u-42" 100) (100 + 24 * 3600) =
      .err .expiredCredential ∧
    VerifyToken "test-key" (CreateToken "test-key" "u-42" 100) (100 + 24 * 3600 + 1) =
      .err .expiredCredential :=
  ⟨(VerifyToken_expiry_boundary "test-key" "u-42" 100).1,
   (VerifyToken_expiry_boundary "test-key" "u-42" 100).2.1,
   (VerifyToken_expiry_boundary "test-key" "u-42" 100).2.2 (100 + 24 * 3600 + 1) (by omega)⟩

/-- C6: the spec requires a ClaimMissingError when the subject claim is
absent or not a string, but the source extracts the subject with the
unchecked type assertion on the claims map, which panics at runtime in both
cases. Evaluated here on two correctly signed, unexpired credentials: one
with no subject claim and one with a numeric subject claim. -/
theorem VerifyToken_missing_subject_panics :
    VerifyToken "test-key"
      { header := hs256Header,
        claims := { usertkn := none, exp := some 86400 },
        sig := hmacSHA256 "test-key"
                 (hs256Header ++ "." ++ encodeClaims { usertkn := none, exp := some 86400 }) }
      0 = .panics ∧
    VerifyToken "test-key"
      { header := hs256Header,
        claims := { usertkn := some (.num 7), exp := some 86400 },
        sig := hmacSHA256 "test-key"
                 (hs256Header ++ "." ++ encodeClaims { usertkn := some (.num 7), exp := some 86400 }) }
      0 = .panics := by
  exact ⟨by decide, by decide⟩

/-- setSigByte replaces the byte at position `i` of the signature segment. -/
def setSigByte (t : Token) (i : Nat) (c : Char) : Token :=
  { t with sig := String.mk (t.sig.data.set i c) }

/-- Replacing one byte of a string by a different byte yields a different
string. -/
theorem setByte_ne (s : String) (i : Nat) (c : Char)
    (hi : i < s.data.length) (hc : c ≠ s.data.get ⟨i, hi⟩) :
    String.mk (s.data.set i c) ≠ s := by
  intro h
  have hdata : s.data.set i c = s.data := congrArg String.data h
  have h1 : (s.data.set i c)[i]? = some c := List.getElem?_set_eq_of_lt c hi
  rw [hdata, List.getElem?_eq_getElem hi] at h1
  exact hc (by simpa [List.get_eq_getElem] using (Option.some.inj h1).symm)

/-- C7: changing any byte of the signature segment of a freshly issued,
unexpired credential to a different byte makes verification fail with the
signature-invalid error; in particular it never succeeds with any subject. -/
theorem VerifyToken_tamper_signatureInvalid (secretKey usertkn : String) (t now : Int)
    (i : Nat) (c : Char)
    (hnow : now < t + 24 * 3600)
    (hi : i < (CreateToken secretKey usertkn t).sig.data.length)
    (hc : c ≠ (CreateToken secretKey usertkn t).sig.data.get ⟨i, hi⟩) :
    VerifyToken secretKey (setSigByte (CreateToken secretKey usertkn t) i c) now =
      .err .signatureInvalid := by
  have hne : String.mk ((CreateToken secretKey usertkn t).sig.data.set i c) ≠
      (CreateToken secretKey usertkn t).sig :=
    setByte_ne (CreateToken secretKey usertkn t).sig i c hi hc
  have hmac : hmacSHA256 secretKey
      (signingInput (setSigByte (CreateToken secretKey usertkn t) i c)) =
      (CreateToken secretKey usertkn t).sig := rfl
  have hsig : ¬((setSigByte (CreateToken secretKey usertkn t) i c).sig =
      hmacSHA256 secretKey
        (signingInput (setSigByte (CreateToken secretKey usertkn t) i c))) := by
    rw [hmac]
    exact hne
  simp [VerifyToken, jwtParse, hsig]

theorem VerifyToken_tamper_signatureInvalid_witness :
    VerifyToken "test-key" (setSigByte (CreateToken "test-key" "u-42" 0) 0 'X') 0 =
      .err .signatureInvalid :=
  VerifyToken_tamper_signatureInvalid "test-key" "u-42" 0 0 0 'X'
    (by omega) (by decide) (by decide)

end ManagerApiAuth
